import Mathlib

/-!
Verification development for the DesignFin unit-economics calculator.

The program keeps a single `FinancialState` record and derives, as pure
functions of it, a per-unit cost (COGS) and a per-sales-channel result
sequence.  JS numbers are modelled as exact rationals (`ℚ`); the
`Infinity` break-even sentinel is modelled by a dedicated inductive
(`BreakEven.unreachable`); fallible string parsing returns `Option ℚ`.
-/

namespace DesignFin

/-- A named sunk development expense (types.ts `CostItem`). -/
structure CostItem where
  id : String
  name : String
  amount : ℚ
deriving DecidableEq, Repr

/-- One raw-material line of a production batch (types.ts `MaterialItem`). -/
structure MaterialItem where
  id : String
  name : String
  cost : ℚ
  qtyPerUnit : ℚ
  bufferUnits : ℚ
  unitCost : ℚ
  notes : String
deriving DecidableEq, Repr

/-- A static sales-channel definition (types.ts `SalesScenario`). -/
structure SalesScenario where
  id : String
  name : String
  discountPercent : ℚ
  commissionPercent : ℚ
  description : String
deriving DecidableEq, Repr

/-- A per-channel user override entry (types.ts `ScenarioConfig`). -/
structure ScenarioConfig where
  id : String
  discountPercent : ℚ
deriving DecidableEq, Repr

/-- Break-even units: the code stores `Math.ceil(fixed / margin)` or the
JS `Infinity` sentinel; the sentinel is a distinct constructor here. -/
inductive BreakEven where
  | units (n : ℤ)
  | unreachable
deriving DecidableEq, Repr

/-- A derived per-channel result (types.ts `ScenarioResult`, the
`SalesScenario` fields flattened in). -/
structure ScenarioResult where
  id : String
  name : String
  discountPercent : ℚ
  commissionPercent : ℚ
  description : String
  netRevenue : ℚ
  grossMargin : ℚ
  profit : ℚ
  breakEvenUnits : BreakEven
  isProfitable : Bool
  roi : ℚ
deriving DecidableEq, Repr

/-- The root state (types.ts `FinancialState`). -/
structure FinancialState where
  devCosts : List CostItem
  amortizationQty : ℚ
  batchSize : ℚ
  wasteCount : ℚ
  materials : List MaterialItem
  publicPrice : ℚ
  fixedMonthlyExpenses : ℚ
  designerRoyaltyPercent : ℚ
  customScenarios : List ScenarioConfig
deriving DecidableEq, Repr

/-- constants.ts `DEFAULT_SCENARIOS`. -/
def DEFAULT_SCENARIOS : List SalesScenario :=
  [ { id := "direct", name := "Direct Sale", discountPercent := 0,
      commissionPercent := 0, description := "Direct to consumer (Website)" },
    { id := "card", name := "Card Sale", discountPercent := 0.035,
      commissionPercent := 0, description := "Processing fees included" },
    { id := "specifier", name := "Architect/Specifier", discountPercent := 0.15,
      commissionPercent := 0, description := "Trade discount" },
    { id := "retail", name := "Retail Store", discountPercent := 0.50,
      commissionPercent := 0, description := "Standard wholesale" },
    { id := "distributor", name := "Distributor", discountPercent := 0.60,
      commissionPercent := 0, description := "Volume partner" },
    { id := "agent", name := "Sales Agent", discountPercent := 0.50,
      commissionPercent := 0.025, description := "Wholesale + Commission" } ]

/-- constants.ts `INITIAL_STATE`. -/
def INITIAL_STATE : FinancialState :=
  { devCosts :=
      [ { id := "1", name := "Industrial Design", amount := 5000 },
        { id := "2", name := "Prototyping", amount := 1200 },
        { id := "3", name := "Tooling", amount := 3500 } ],
    amortizationQty := 1000,
    batchSize := 50,
    wasteCount := 2,
    materials :=
      [ { id := "1", name := "Aluminum 6061", cost := 250, qtyPerUnit := 0,
          bufferUnits := 0, unitCost := 0, notes := "Manual entry" },
        { id := "2", name := "Packaging", cost := 50, qtyPerUnit := 0,
          bufferUnits := 0, unitCost := 0, notes := "Manual entry" },
        { id := "3", name := "Powder Coating", cost := 150, qtyPerUnit := 0,
          bufferUnits := 0, unitCost := 0, notes := "Manual entry" } ],
    publicPrice := 85.00,
    fixedMonthlyExpenses := 2500,
    designerRoyaltyPercent := 0.05,
    customScenarios :=
      DEFAULT_SCENARIOS.map (fun s => { id := s.id, discountPercent := s.discountPercent }) }

/-- App.tsx `handleClearAll`: the zeroed snapshot. -/
def CLEARED_STATE : FinancialState :=
  { devCosts := [],
    amortizationQty := 0,
    batchSize := 0,
    wasteCount := 0,
    materials := [],
    publicPrice := 0,
    fixedMonthlyExpenses := 0,
    designerRoyaltyPercent := 0,
    customScenarios := DEFAULT_SCENARIOS.map (fun s => { id := s.id, discountPercent := 0 }) }

/-- App.tsx `totalDevCost`. -/
def totalDevCost (st : FinancialState) : ℚ :=
  st.devCosts.foldl (fun acc item => acc + item.amount) 0

/-- App.tsx `amortPerUnit`. -/
def amortPerUnit (st : FinancialState) : ℚ :=
  if st.amortizationQty > 0 then totalDevCost st / st.amortizationQty else 0

/-- App.tsx `totalBatchMaterialCost`. -/
def totalBatchMaterialCost (st : FinancialState) : ℚ :=
  st.materials.foldl (fun acc item => acc + item.cost) 0

/-- App.tsx `effectiveUnits = Math.max(0, batchSize - wasteCount)`. -/
def effectiveUnits (st : FinancialState) : ℚ :=
  max 0 (st.batchSize - st.wasteCount)

/-- App.tsx `materialCostPerUnit`. -/
def materialCostPerUnit (st : FinancialState) : ℚ :=
  if effectiveUnits st > 0 then totalBatchMaterialCost st / effectiveUnits st else 0

/-- App.tsx `COGS`. -/
def COGS (st : FinancialState) : ℚ :=
  materialCostPerUnit st + amortPerUnit st

/-- The effective discount of a static scenario: the override found in
`customScenarios` by id, else the scenario default
(App.tsx `scenarios` useMemo, `override`/`currentDiscount`). -/
def effDiscount (st : FinancialState) (s : SalesScenario) : ℚ :=
  match st.customScenarios.find? (fun c => c.id == s.id) with
  | some o => o.discountPercent
  | none => s.discountPercent

/-- The body of the `DEFAULT_SCENARIOS.map` in App.tsx `scenarios`. -/
def scenarioResult (st : FinancialState) (s : SalesScenario) : ScenarioResult :=
  let currentDiscount := effDiscount st s
  let netRevenue := st.publicPrice * (1 - currentDiscount)
  let royaltyAmount := netRevenue * st.designerRoyaltyPercent
  let commissionAmount := netRevenue * s.commissionPercent
  let grossMargin := netRevenue - COGS st - royaltyAmount - commissionAmount
  let profit := grossMargin
  let breakEvenUnits :=
    if grossMargin > 0 then BreakEven.units ⌈st.fixedMonthlyExpenses / grossMargin⌉
    else BreakEven.unreachable
  { id := s.id, name := s.name, discountPercent := currentDiscount,
    commissionPercent := s.commissionPercent, description := s.description,
    netRevenue := netRevenue, grossMargin := grossMargin, profit := profit,
    breakEvenUnits := breakEvenUnits,
    isProfitable := decide (profit > 0),
    roi := if COGS st > 0 then profit / COGS st * 100 else 0 }

/-- App.tsx `scenarios` (the derived `ScenarioResult[]`). -/
def scenarios (st : FinancialState) : List ScenarioResult :=
  DEFAULT_SCENARIOS.map (scenarioResult st)

/-- The body of the `currentMaterials.map` in App.tsx `recalculateMaterials`.
The JS `typeof` guards always hold in the typed model; `m.bufferUnits || 0`
is embedded literally as a zero test. -/
def recalcMaterial (newBatchSize : ℚ) (m : MaterialItem) : MaterialItem :=
  let qty := m.qtyPerUnit
  let buffer := if m.bufferUnits = 0 then 0 else m.bufferUnits
  let uCost := m.unitCost
  if uCost > 0 ∨ qty > 0 then
    { m with cost := (qty * newBatchSize + buffer) * uCost }
  else m

/-- App.tsx `recalculateMaterials`. -/
def recalculateMaterials (currentMaterials : List MaterialItem) (newBatchSize : ℚ) :
    List MaterialItem :=
  currentMaterials.map (recalcMaterial newBatchSize)

/-- App.tsx `updateBatchSize`. -/
def updateBatchSize (st : FinancialState) (newSize : ℚ) : FinancialState :=
  { st with batchSize := newSize,
            materials := recalculateMaterials st.materials newSize }

/-- A `keyof MaterialItem` field selector. -/
inductive MatField where
  | name
  | cost
  | qtyPerUnit
  | bufferUnits
  | unitCost
  | notes
deriving DecidableEq, Repr

/-- A `string | number` field value. -/
inductive FieldValue where
  | str (s : String)
  | num (q : ℚ)
deriving DecidableEq, Repr

/-- The JS `Number(value)` coercion as used in the modal's `updateRow`;
there the value for the three numeric fields always arrives as a number
(the UI parses first), so the string branch is never exercised. -/
def FieldValue.toNum : FieldValue → ℚ
  | .num q => q
  | .str _ => 0

/-- The dynamic field write `{ ...item, [field]: value }`.  A write whose
value type does not match the field's type is not representable in the
typed model (and never produced by the UI), so it leaves the item as is. -/
def setMatField (item : MaterialItem) (field : MatField) (v : FieldValue) : MaterialItem :=
  match field, v with
  | .name, .str s => { item with name := s }
  | .notes, .str s => { item with notes := s }
  | .cost, .num q => { item with cost := q }
  | .qtyPerUnit, .num q => { item with qtyPerUnit := q }
  | .bufferUnits, .num q => { item with bufferUnits := q }
  | .unitCost, .num q => { item with unitCost := q }
  | _, _ => item

/-- App.tsx `handleMaterialChange` (the legacy sidebar write). -/
def handleMaterialChange (materials : List MaterialItem) (id : String)
    (field : MatField) (value : FieldValue) : List MaterialItem :=
  materials.map (fun item => if item.id == id then setMatField item field value else item)

/-- MaterialManagerModal.tsx `updateRow`: the dynamic field write plus the
unconditional auto-recalculation of `cost` whenever `qtyPerUnit`,
`bufferUnits` or `unitCost` is the edited field. -/
def updateRow (batchSize : ℚ) (ms : List MaterialItem) (id : String)
    (field : MatField) (value : FieldValue) : List MaterialItem :=
  ms.map (fun item =>
    if item.id ≠ id then item
    else
      let updatedItem := setMatField item field value
      if field = MatField.qtyPerUnit ∨ field = MatField.bufferUnits ∨
          field = MatField.unitCost then
        let qty := if field = MatField.qtyPerUnit then value.toNum else item.qtyPerUnit
        let buff := if field = MatField.bufferUnits then value.toNum else item.bufferUnits
        let uCost := if field = MatField.unitCost then value.toNum else item.unitCost
        { updatedItem with cost := (qty * batchSize + buff) * uCost }
      else updatedItem)

/-- The modal's save path: `onSave` stores the modal's list verbatim
(App.tsx `updateState('materials', updatedMaterials)`). -/
def saveMaterials (st : FinancialState) (updatedMaterials : List MaterialItem) :
    FinancialState :=
  { st with materials := updatedMaterials }

/-- The maximal digit prefix of a character list, with the rest. -/
def takeDigits : List Char → List Char × List Char
  | [] => ([], [])
  | c :: cs =>
    if c.isDigit then
      let p := takeDigits cs
      (c :: p.1, p.2)
    else ([], c :: cs)

/-- The natural number denoted by a digit list. -/
def digitsToNat (ds : List Char) : ℕ :=
  ds.foldl (fun acc c => acc * 10 + (c.toNat - 48)) 0

/-- The unsigned decimal mantissa at the head of a character list:
`digits`, `digits.digits`, `digits.` or `.digits`; `none` when no digit
is found. -/
def parseMantissa (cs : List Char) : Option (ℚ × List Char) :=
  let p := takeDigits cs
  match p.2 with
  | '.' :: r2 =>
    let f := takeDigits r2
    if p.1.isEmpty ∧ f.1.isEmpty then none
    else some ((digitsToNat p.1 : ℚ) + (digitsToNat f.1 : ℚ) / 10 ^ f.1.length, f.2)
  | _ => if p.1.isEmpty then none else some ((digitsToNat p.1 : ℚ), p.2)

/-- An optional `e`/`E` exponent suffix applied to a parsed mantissa. -/
def applyExponent (q : ℚ) (cs : List Char) : ℚ :=
  match cs with
  | 'e' :: r | 'E' :: r =>
    match r with
    | '-' :: r2 =>
      let d := takeDigits r2
      if d.1.isEmpty then q else q / 10 ^ digitsToNat d.1
    | '+' :: r2 =>
      let d := takeDigits r2
      if d.1.isEmpty then q else q * 10 ^ digitsToNat d.1
    | _ =>
      let d := takeDigits r
      if d.1.isEmpty then q else q * 10 ^ digitsToNat d.1
  | _ => q

/-- The JS `parseFloat` builtin on decimal literals: leading whitespace
skipped, optional sign, longest valid prefix parsed, trailing characters
ignored; `none` models `NaN`.  (The JS `Infinity` literal is outside the
rational model and not representable in the state either.) -/
def jsParseFloat (s : String) : Option ℚ :=
  let cs := s.toList.dropWhile (fun c => c == ' ' || c == '\t' || c == '\n' || c == '\r')
  match cs with
  | '-' :: r => (parseMantissa r).map (fun p => -(applyExponent p.1 p.2))
  | '+' :: r => (parseMantissa r).map (fun p => applyExponent p.1 p.2)
  | _ => (parseMantissa cs).map (fun p => applyExponent p.1 p.2)

/-- App.tsx `handleScenarioDiscountChange`.  The `state.customScenarios ||
DEFAULT_SCENARIOS.map(...)` fallback is dead in the typed model, where the
override table always exists. -/
def handleScenarioDiscountChange (table : List ScenarioConfig) (id : String)
    (value : String) : List ScenarioConfig :=
  let newPercent : ℚ :=
    match jsParseFloat value with
    | none => 0
    | some v => v / 100
  table.map (fun s => if s.id == id then { s with discountPercent := newPercent } else s)

theorem scenarioResult_id (st : FinancialState) (s : SalesScenario) :
    (scenarioResult st s).id = s.id := rfl

theorem scenarioResult_name (st : FinancialState) (s : SalesScenario) :
    (scenarioResult st s).name = s.name := rfl

theorem scenarioResult_discountPercent (st : FinancialState) (s : SalesScenario) :
    (scenarioResult st s).discountPercent = effDiscount st s := rfl

theorem scenarioResult_commissionPercent (st : FinancialState) (s : SalesScenario) :
    (scenarioResult st s).commissionPercent = s.commissionPercent := rfl

theorem scenarioResult_netRevenue (st : FinancialState) (s : SalesScenario) :
    (scenarioResult st s).netRevenue = st.publicPrice * (1 - effDiscount st s) := rfl

theorem scenarioResult_grossMargin (st : FinancialState) (s : SalesScenario) :
    (scenarioResult st s).grossMargin =
      (scenarioResult st s).netRevenue - COGS st
        - (scenarioResult st s).netRevenue * st.designerRoyaltyPercent
        - (scenarioResult st s).netRevenue * s.commissionPercent := rfl

theorem scenarioResult_profit (st : FinancialState) (s : SalesScenario) :
    (scenarioResult st s).profit = (scenarioResult st s).grossMargin := rfl

theorem scenarioResult_isProfitable (st : FinancialState) (s : SalesScenario) :
    (scenarioResult st s).isProfitable = decide ((scenarioResult st s).profit > 0) := rfl

theorem scenarioResult_breakEvenUnits (st : FinancialState) (s : SalesScenario) :
    (scenarioResult st s).breakEvenUnits =
      if (scenarioResult st s).grossMargin > 0 then
        BreakEven.units ⌈st.fixedMonthlyExpenses / (scenarioResult st s).grossMargin⌉
      else BreakEven.unreachable := rfl

theorem scenarioResult_roi (st : FinancialState) (s : SalesScenario) :
    (scenarioResult st s).roi =
      if COGS st > 0 then (scenarioResult st s).profit / COGS st * 100 else 0 := rfl

/-- C1: on the default initial state the derived values are
amortPerUnit = 9.7, effectiveUnits = 48, materialCostPerUnit = 9.375,
COGS = 19.075 (from devCosts totalling 9700 and materials totalling 450),
and the retail scenario has netRevenue = 42.5, royaltyAmount = 2.125,
commission 0, grossMargin = 21.3, isProfitable = true and
breakEvenUnits = ceil(2500 / 21.3) = 118. -/
theorem designfin_c1 :
    totalDevCost INITIAL_STATE = 9700 ∧
    amortPerUnit INITIAL_STATE = 9.7 ∧
    effectiveUnits INITIAL_STATE = 48 ∧
    materialCostPerUnit INITIAL_STATE = 9.375 ∧
    COGS INITIAL_STATE = 19.075 ∧
    ((scenarios INITIAL_STATE).find? (fun r => r.id == "retail")).map
        (fun r => (r.discountPercent, r.commissionPercent, r.netRevenue,
                   r.netRevenue * INITIAL_STATE.designerRoyaltyPercent,
                   r.grossMargin, r.isProfitable, r.breakEvenUnits)) =
      some (0.50, 0, 42.5, 2.125, 21.3, true, BreakEven.units 118) ∧
    (118 : ℤ) = ⌈(2500 : ℚ) / 21.3⌉ := by
  have h1 : totalDevCost INITIAL_STATE = 9700 := by
    norm_num [totalDevCost, INITIAL_STATE]
  have hq : INITIAL_STATE.amortizationQty = 1000 := rfl
  have h2 : amortPerUnit INITIAL_STATE = 9.7 := by
    simp only [amortPerUnit, h1, hq]
    rw [if_pos (show (1000 : ℚ) > 0 by norm_num)]
    norm_num
  have hb : INITIAL_STATE.batchSize = 50 := rfl
  have hw : INITIAL_STATE.wasteCount = 2 := rfl
  have h3 : effectiveUnits INITIAL_STATE = 48 := by
    simp only [effectiveUnits, hb, hw]
    rw [max_eq_right (show (0 : ℚ) ≤ 50 - 2 by norm_num)]
    norm_num
  have htb : totalBatchMaterialCost INITIAL_STATE = 450 := by
    norm_num [totalBatchMaterialCost, INITIAL_STATE]
  have h4 : materialCostPerUnit INITIAL_STATE = 9.375 := by
    simp only [materialCostPerUnit, h3, htb]
    rw [if_pos (show (48 : ℚ) > 0 by norm_num)]
    norm_num
  have h5 : COGS INITIAL_STATE = 19.075 := by
    simp only [COGS, h4, h2]; norm_num
  have hcs : INITIAL_STATE.customScenarios =
      [⟨"direct", 0⟩, ⟨"card", 0.035⟩, ⟨"specifier", 0.15⟩, ⟨"retail", 0.50⟩,
       ⟨"distributor", 0.60⟩, ⟨"agent", 0.50⟩] := rfl
  have hd : effDiscount INITIAL_STATE
      { id := "retail", name := "Retail Store", discountPercent := 0.50,
        commissionPercent := 0, description := "Standard wholesale" } = 0.50 := by
    simp [effDiscount, hcs, List.find?_cons]
  have hr : (scenarios INITIAL_STATE).find? (fun r => r.id == "retail") =
      some (scenarioResult INITIAL_STATE
        { id := "retail", name := "Retail Store", discountPercent := 0.50,
          commissionPercent := 0, description := "Standard wholesale" }) := by
    simp [scenarios, DEFAULT_SCENARIOS, List.find?_cons, scenarioResult_id]
  have hpp : INITIAL_STATE.publicPrice = 85.00 := rfl
  have hroy : INITIAL_STATE.designerRoyaltyPercent = 0.05 := rfl
  have hfix : INITIAL_STATE.fixedMonthlyExpenses = 2500 := rfl
  have hnet : (scenarioResult INITIAL_STATE
      { id := "retail", name := "Retail Store", discountPercent := 0.50,
        commissionPercent := 0, description := "Standard wholesale" }).netRevenue = 42.5 := by
    rw [scenarioResult_netRevenue, hd, hpp]; norm_num
  have hgm : (scenarioResult INITIAL_STATE
      { id := "retail", name := "Retail Store", discountPercent := 0.50,
        commissionPercent := 0, description := "Standard wholesale" }).grossMargin = 21.3 := by
    rw [scenarioResult_grossMargin, hnet, h5, hroy]; norm_num
  have hceil : ⌈(2500 : ℚ) / 21.3⌉ = 118 := by norm_num [Int.ceil_eq_iff]
  refine ⟨h1, h2, h3, h4, h5, ?_, hceil.symm⟩
  rw [hr]
  simp only [Option.map_some', scenarioResult_discountPercent,
    scenarioResult_commissionPercent, scenarioResult_isProfitable,
    scenarioResult_breakEvenUnits, scenarioResult_profit, hd, hnet, hgm, hroy, hfix]
  rw [if_pos (show (21.3 : ℚ) > 0 by norm_num), hceil]
  simp only [Option.some.injEq, Prod.mk.injEq, decide_eq_true_eq]
  norm_num

theorem ifZeroElse (q : ℚ) : (if q = 0 then 0 else q) = q := by
  split <;> simp_all

/-- C2: batch-change recalculation returns a list of the same length with
order, ids and all fields other than cost unchanged; calculated-mode items
(unitCost > 0 or qtyPerUnit > 0) get cost = (qtyPerUnit × newBatchSize +
bufferUnits) × unitCost, and items with unitCost = 0 and qtyPerUnit = 0
keep their cost. -/
theorem designfin_c2 (ms : List MaterialItem) (b : ℚ) :
    (recalculateMaterials ms b).length = ms.length ∧
    ∀ (i : ℕ) (m m2 : MaterialItem),
      ms[i]? = some m → (recalculateMaterials ms b)[i]? = some m2 →
      m2.id = m.id ∧ m2.name = m.name ∧ m2.qtyPerUnit = m.qtyPerUnit ∧
      m2.bufferUnits = m.bufferUnits ∧ m2.unitCost = m.unitCost ∧ m2.notes = m.notes ∧
      (m.unitCost > 0 ∨ m.qtyPerUnit > 0 →
        m2.cost = (m.qtyPerUnit * b + m.bufferUnits) * m.unitCost) ∧
      (m.unitCost = 0 ∧ m.qtyPerUnit = 0 → m2.cost = m.cost) := by
  constructor
  · simp [recalculateMaterials]
  · intro i m m2 h1 h2
    rw [recalculateMaterials, List.getElem?_map, h1, Option.map_some'] at h2
    injection h2 with h2
    subst h2
    by_cases hc : m.unitCost > 0 ∨ m.qtyPerUnit > 0
    · refine ⟨?_, ?_, ?_, ?_, ?_, ?_, fun _ => ?_, fun h0 => ?_⟩
      · simp [recalcMaterial, hc]
      · simp [recalcMaterial, hc]
      · simp [recalcMaterial, hc]
      · simp [recalcMaterial, hc]
      · simp [recalcMaterial, hc]
      · simp [recalcMaterial, hc]
      · simp [recalcMaterial, hc, ifZeroElse]
      · rcases h0 with ⟨h0u, h0q⟩
        rcases hc with hc | hc <;> simp_all
    · have hfix : recalcMaterial b m = m := by simp [recalcMaterial, hc]
      rw [hfix]
      exact ⟨rfl, rfl, rfl, rfl, rfl, rfl, fun h => absurd h hc, fun _ => rfl⟩

theorem designfin_c2_witness :
    ∃ m2, (recalculateMaterials [⟨"1", "Tube", 7, 2, 1, 5, ""⟩] 10)[0]? = some m2 ∧
      m2.id = "1" ∧ m2.cost = ((2 : ℚ) * 10 + 1) * 5 := by
  have e : (recalculateMaterials [⟨"1", "Tube", 7, 2, 1, 5, ""⟩] 10)[0]? =
      some (recalcMaterial 10 ⟨"1", "Tube", 7, 2, 1, 5, ""⟩) := by
    simp [recalculateMaterials]
  have h2 := (designfin_c2 [⟨"1", "Tube", 7, 2, 1, 5, ""⟩] 10).2 0
      ⟨"1", "Tube", 7, 2, 1, 5, ""⟩ (recalcMaterial 10 ⟨"1", "Tube", 7, 2, 1, 5, ""⟩) rfl e
  exact ⟨recalcMaterial 10 ⟨"1", "Tube", 7, 2, 1, 5, ""⟩, e, h2.1,
    h2.2.2.2.2.2.2.1 (Or.inl (by norm_num))⟩

theorem recalcMaterial_idem (b : ℚ) (m : MaterialItem) :
    recalcMaterial b (recalcMaterial b m) = recalcMaterial b m := by
  simp only [recalcMaterial]
  by_cases hc : m.unitCost > 0 ∨ m.qtyPerUnit > 0
  · simp [hc]
  · simp [hc]

/-- C8: batch-size recalculation is idempotent. -/
theorem designfin_c8 (ms : List MaterialItem) (b : ℚ) :
    recalculateMaterials (recalculateMaterials ms b) b = recalculateMaterials ms b := by
  simp only [recalculateMaterials, List.map_map]
  exact List.map_congr_left (fun m _ => recalcMaterial_idem b m)

/-- C7: the COGS aggregation is total: zero amortization quantity gives
zero amortized cost, effectiveUnits is the clamped difference, zero
effective units give zero material cost per unit, and COGS is always the
well-defined sum of the two parts. -/
theorem designfin_c7 (st : FinancialState) :
    (st.amortizationQty = 0 → amortPerUnit st = 0) ∧
    effectiveUnits st = max 0 (st.batchSize - st.wasteCount) ∧
    (effectiveUnits st = 0 → materialCostPerUnit st = 0) ∧
    COGS st = materialCostPerUnit st + amortPerUnit st := by
  refine ⟨fun h => ?_, rfl, fun h => ?_, rfl⟩
  · simp [amortPerUnit, h]
  · simp [materialCostPerUnit, h]

theorem designfin_c7_witness :
    CLEARED_STATE.amortizationQty = 0 ∧ amortPerUnit CLEARED_STATE = 0 ∧
    effectiveUnits CLEARED_STATE = 0 ∧ materialCostPerUnit CLEARED_STATE = 0 := by
  have he : effectiveUnits CLEARED_STATE = 0 := by
    simp [effectiveUnits, CLEARED_STATE]
  exact ⟨rfl, (designfin_c7 CLEARED_STATE).1 rfl, he,
    (designfin_c7 CLEARED_STATE).2.2.1 he⟩

theorem map_id_of_eq {α : Type} (l : List α) (f : α → α) (h : ∀ a ∈ l, f a = a) :
    l.map f = l := by
  induction l with
  | nil => rfl
  | cons a t ih =>
    simp only [List.map_cons]
    rw [h a (List.mem_cons_self a t), ih (fun x hx => h x (List.mem_cons_of_mem a hx))]

/-- C10: the scenario-discount write touches only entries with the given
id: other entries are returned unchanged at their position, length is
preserved, and when no entry matches the table is returned unchanged. -/
theorem designfin_c10 (table : List ScenarioConfig) (id value : String) :
    (handleScenarioDiscountChange table id value).length = table.length ∧
    (∀ (i : ℕ) (c : ScenarioConfig), table[i]? = some c → c.id ≠ id →
      (handleScenarioDiscountChange table id value)[i]? = some c) ∧
    ((∀ c ∈ table, c.id ≠ id) → handleScenarioDiscountChange table id value = table) := by
  refine ⟨by simp [handleScenarioDiscountChange], fun i c h1 hne => ?_, fun hall => ?_⟩
  · simp only [handleScenarioDiscountChange]
    rw [List.getElem?_map, h1, Option.map_some']
    simp [hne]
  · simp only [handleScenarioDiscountChange]
    exact map_id_of_eq table _ (fun c hc => by simp [hall c hc])

theorem designfin_c10_witness :
    (handleScenarioDiscountChange [⟨"direct", 0⟩] "retail" "55").length = 1 ∧
    (handleScenarioDiscountChange [⟨"direct", 0⟩] "retail" "55")[0]? = some ⟨"direct", 0⟩ ∧
    handleScenarioDiscountChange [⟨"direct", 0⟩] "retail" "55" = [⟨"direct", 0⟩] := by
  have h := designfin_c10 [⟨"direct", 0⟩] "retail" "55"
  refine ⟨h.1, h.2.1 0 ⟨"direct", 0⟩ rfl (by decide), h.2.2 ?_⟩
  intro c hc
  rw [List.mem_singleton] at hc
  subst hc
  decide

/-- C6: the scenario-discount write is total: for every entry with the
given id, a non-parsing input string stores discountPercent 0 and a
parsing one stores the parsed value divided by 100; in particular writing
"abc" to the retail entry of the initial override table stores 0. -/
theorem designfin_c6 (table : List ScenarioConfig) (id value : String) :
    (∀ (i : ℕ) (c : ScenarioConfig), table[i]? = some c → c.id = id →
      ∃ c2, (handleScenarioDiscountChange table id value)[i]? = some c2 ∧
        c2.id = c.id ∧
        (jsParseFloat value = none → c2.discountPercent = 0) ∧
        (∀ v : ℚ, jsParseFloat value = some v → c2.discountPercent = v / 100)) ∧
    jsParseFloat "abc" = none ∧
    (handleScenarioDiscountChange INITIAL_STATE.customScenarios "retail" "abc").find?
        (fun c => c.id == "retail") = some ⟨"retail", 0⟩ := by
  refine ⟨fun i c h1 hid => ?_, rfl, ?_⟩
  · simp only [handleScenarioDiscountChange]
    rw [List.getElem?_map, h1, Option.map_some']
    refine ⟨_, rfl, ?_, ?_, ?_⟩
    · simp [hid]
    · intro hn; simp [hid, hn]
    · intro v hv; simp [hid, hv]
  · have hcs : INITIAL_STATE.customScenarios =
        [⟨"direct", 0⟩, ⟨"card", 0.035⟩, ⟨"specifier", 0.15⟩, ⟨"retail", 0.50⟩,
         ⟨"distributor", 0.60⟩, ⟨"agent", 0.50⟩] := rfl
    have hab : jsParseFloat "abc" = none := rfl
    simp [handleScenarioDiscountChange, hcs, hab, List.find?_cons]

theorem designfin_c6_witness :
    ∃ c2, (handleScenarioDiscountChange [⟨"retail", 1/2⟩] "retail" "abc")[0]? = some c2 ∧
      c2.id = "retail" ∧ c2.discountPercent = 0 := by
  obtain ⟨c2, h1, h2, h3, _⟩ :=
    (designfin_c6 [⟨"retail", 1/2⟩] "retail" "abc").1 0 ⟨"retail", 1/2⟩ rfl rfl
  exact ⟨c2, h1, h2, h3 rfl⟩

/-- C9: a direct cost write on a calculated-mode item is superseded by
the next recalculation: writing the cost field and then recalculating for
a batch size gives the same list as recalculating alone. -/
theorem designfin_c9 (ms : List MaterialItem) (id : String) (v b : ℚ)
    (h : ∀ m ∈ ms, m.id = id → m.unitCost > 0 ∨ m.qtyPerUnit > 0) :
    recalculateMaterials (handleMaterialChange ms id MatField.cost (FieldValue.num v)) b =
      recalculateMaterials ms b := by
  simp only [recalculateMaterials, handleMaterialChange, List.map_map]
  apply List.map_congr_left
  intro m hm
  simp only [Function.comp_apply]
  by_cases hid : m.id = id
  · have hc := h m hm hid
    simp only [hid, beq_self_eq_true, if_true]
    rcases hc with hc | hc <;> simp [setMatField, recalcMaterial, hc]
  · simp [hid]

theorem designfin_c9_witness :
    recalculateMaterials (handleMaterialChange [⟨"1", "Tube", 7, 2, 1, 5, ""⟩] "1"
        MatField.cost (FieldValue.num 999)) 10 =
      recalculateMaterials [⟨"1", "Tube", 7, 2, 1, 5, ""⟩] 10 := by
  apply designfin_c9
  intro m hm _
  rw [List.mem_singleton] at hm
  subst hm
  exact Or.inl (by norm_num)

theorem scenarioResult_props (st : FinancialState) (s : SalesScenario) :
    (scenarioResult st s).id = s.id ∧
    (scenarioResult st s).commissionPercent = s.commissionPercent ∧
    (∀ o : ScenarioConfig, st.customScenarios.find? (fun c => c.id == s.id) = some o →
      (scenarioResult st s).discountPercent = o.discountPercent) ∧
    (st.customScenarios.find? (fun c => c.id == s.id) = none →
      (scenarioResult st s).discountPercent = s.discountPercent) ∧
    (scenarioResult st s).netRevenue =
      st.publicPrice * (1 - (scenarioResult st s).discountPercent) ∧
    (scenarioResult st s).grossMargin = (scenarioResult st s).netRevenue - COGS st
      - (scenarioResult st s).netRevenue * st.designerRoyaltyPercent
      - (scenarioResult st s).netRevenue * s.commissionPercent ∧
    (scenarioResult st s).profit = (scenarioResult st s).grossMargin ∧
    ((scenarioResult st s).isProfitable = true ↔ (scenarioResult st s).profit > 0) ∧
    (COGS st > 0 → (scenarioResult st s).roi =
      (scenarioResult st s).profit / COGS st * 100) ∧
    (COGS st = 0 → (scenarioResult st s).roi = 0) := by
  refine ⟨rfl, rfl, fun o ho => ?_, fun hn => ?_, rfl, rfl, rfl, ?_, fun hpos => ?_,
    fun hzero => ?_⟩
  · simp only [scenarioResult_discountPercent, effDiscount, ho]
  · simp only [scenarioResult_discountPercent, effDiscount, hn]
  · simp only [scenarioResult_isProfitable, decide_eq_true_eq]
  · rw [scenarioResult_roi, if_pos hpos]
  · rw [scenarioResult_roi, if_neg (by simp [hzero])]

/-- C3: the derived result sequence has exactly one entry per static
scenario, in declaration order; each entry takes its effective discount
from the override table by id (falling back to the static default),
its commission from the static scenario only, and satisfies the net
revenue, margin, profit, profitability and roi equations, with roi 0 when
COGS is 0. -/
theorem designfin_c3 (st : FinancialState) :
    (scenarios st).map (fun r => r.id) =
      ["direct", "card", "specifier", "retail", "distributor", "agent"] ∧
    ∀ (i : ℕ) (hi : i < DEFAULT_SCENARIOS.length) (hs : i < (scenarios st).length),
      (scenarios st).get ⟨i, hs⟩ = scenarioResult st (DEFAULT_SCENARIOS.get ⟨i, hi⟩) ∧
      ((scenarios st).get ⟨i, hs⟩).id = (DEFAULT_SCENARIOS.get ⟨i, hi⟩).id ∧
      ((scenarios st).get ⟨i, hs⟩).commissionPercent =
        (DEFAULT_SCENARIOS.get ⟨i, hi⟩).commissionPercent ∧
      (∀ o : ScenarioConfig,
        st.customScenarios.find? (fun c => c.id == (DEFAULT_SCENARIOS.get ⟨i, hi⟩).id) =
          some o →
        ((scenarios st).get ⟨i, hs⟩).discountPercent = o.discountPercent) ∧
      (st.customScenarios.find? (fun c => c.id == (DEFAULT_SCENARIOS.get ⟨i, hi⟩).id) =
          none →
        ((scenarios st).get ⟨i, hs⟩).discountPercent =
          (DEFAULT_SCENARIOS.get ⟨i, hi⟩).discountPercent) ∧
      ((scenarios st).get ⟨i, hs⟩).netRevenue =
        st.publicPrice * (1 - ((scenarios st).get ⟨i, hs⟩).discountPercent) ∧
      ((scenarios st).get ⟨i, hs⟩).grossMargin =
        ((scenarios st).get ⟨i, hs⟩).netRevenue - COGS st
        - ((scenarios st).get ⟨i, hs⟩).netRevenue * st.designerRoyaltyPercent
        - ((scenarios st).get ⟨i, hs⟩).netRevenue *
            (DEFAULT_SCENARIOS.get ⟨i, hi⟩).commissionPercent ∧
      ((scenarios st).get ⟨i, hs⟩).profit = ((scenarios st).get ⟨i, hs⟩).grossMargin ∧
      (((scenarios st).get ⟨i, hs⟩).isProfitable = true ↔
        ((scenarios st).get ⟨i, hs⟩).profit > 0) ∧
      (COGS st > 0 → ((scenarios st).get ⟨i, hs⟩).roi =
        ((scenarios st).get ⟨i, hs⟩).profit / COGS st * 100) ∧
      (COGS st = 0 → ((scenarios st).get ⟨i, hs⟩).roi = 0) := by
  constructor
  · rfl
  · intro i hi hs
    have hr : (scenarios st).get ⟨i, hs⟩ =
        scenarioResult st (DEFAULT_SCENARIOS.get ⟨i, hi⟩) := by
      simp [scenarios]
    rw [hr]
    exact ⟨rfl, scenarioResult_props st (DEFAULT_SCENARIOS.get ⟨i, hi⟩)⟩

theorem designfin_c3_witness :
    ∃ hi : 0 < DEFAULT_SCENARIOS.length, ∃ hs : 0 < (scenarios INITIAL_STATE).length,
      (scenarios INITIAL_STATE).get ⟨0, hs⟩ =
        scenarioResult INITIAL_STATE (DEFAULT_SCENARIOS.get ⟨0, hi⟩) := by
  have hi : 0 < DEFAULT_SCENARIOS.length := by simp [DEFAULT_SCENARIOS]
  have hs : 0 < (scenarios INITIAL_STATE).length := by simp [scenarios, DEFAULT_SCENARIOS]
  exact ⟨hi, hs, ((designfin_c3 INITIAL_STATE).2 0 hi hs).1⟩

/-- C4: for every scenario result, breakEvenUnits is the dedicated
unreachable sentinel exactly when grossMargin ≤ 0 (a constructor distinct
from every finite value), and equals the ceiling of
fixedMonthlyExpenses / grossMargin when grossMargin > 0. -/
theorem designfin_c4 (st : FinancialState) (r : ScenarioResult)
    (hr : r ∈ scenarios st) :
    (∀ n : ℤ, BreakEven.unreachable ≠ BreakEven.units n) ∧
    (r.grossMargin ≤ 0 → r.breakEvenUnits = BreakEven.unreachable) ∧
    (r.grossMargin > 0 →
      r.breakEvenUnits = BreakEven.units ⌈st.fixedMonthlyExpenses / r.grossMargin⌉) := by
  simp only [scenarios] at hr
  obtain ⟨s, hs, rfl⟩ := List.mem_map.mp hr
  refine ⟨fun n h => BreakEven.noConfusion h, fun hle => ?_, fun hpos => ?_⟩
  · rw [scenarioResult_breakEvenUnits, if_neg (not_lt.mpr hle)]
  · rw [scenarioResult_breakEvenUnits, if_pos hpos]

theorem designfin_c4_witness :
    ∃ r ∈ scenarios (⟨[], 0, 0, 0, [], 100, 50, 0, []⟩ : FinancialState),
      r.grossMargin > 0 ∧
      r.breakEvenUnits = BreakEven.units ⌈(50 : ℚ) / r.grossMargin⌉ := by
  have hmem : scenarioResult (⟨[], 0, 0, 0, [], 100, 50, 0, []⟩ : FinancialState)
      ⟨"direct", "Direct Sale", 0, 0, "Direct to consumer (Website)"⟩ ∈
      scenarios (⟨[], 0, 0, 0, [], 100, 50, 0, []⟩ : FinancialState) :=
    List.mem_map_of_mem _ (by simp [DEFAULT_SCENARIOS])
  have hcogs : COGS (⟨[], 0, 0, 0, [], 100, 50, 0, []⟩ : FinancialState) = 0 := by
    simp [COGS, materialCostPerUnit, amortPerUnit, effectiveUnits,
      totalBatchMaterialCost, totalDevCost]
  have hgm : (scenarioResult (⟨[], 0, 0, 0, [], 100, 50, 0, []⟩ : FinancialState)
      ⟨"direct", "Direct Sale", 0, 0, "Direct to consumer (Website)"⟩).grossMargin
      = 100 := by
    rw [scenarioResult_grossMargin, scenarioResult_netRevenue, hcogs]
    norm_num [effDiscount]
  have hpos : (0 : ℚ) < 100 := by norm_num
  refine ⟨_, hmem, ?_, ?_⟩
  · rw [hgm]; exact hpos
  · exact (designfin_c4 _ _ hmem).2.2 (by rw [hgm]; exact hpos)

/-- C5 counterexample: the modal's updateRow does overwrite the cost of
an item with qtyPerUnit = 0 and unitCost = 0 when bufferUnits is edited:
on the initial Aluminum item (cost 250) an edit of bufferUnits to 3 with
batch size 50 stores cost (0 × 50 + 3) × 0 = 0 ≠ 250. -/
theorem designfin_c5_counterexample :
    ∃ m2, (updateRow 50 [⟨"1", "Aluminum 6061", 250, 0, 0, 0, "Manual entry"⟩] "1"
        MatField.bufferUnits (FieldValue.num 3))[0]? = some m2 ∧
      m2.qtyPerUnit = 0 ∧ m2.unitCost = 0 ∧ m2.cost ≠ (250 : ℚ) := by
  refine ⟨_, rfl, rfl, rfl, ?_⟩
  show ((0 : ℚ) * 50 + 3) * 0 ≠ 250
  norm_num

/-- C5 amended: the batch-size path (recalculateMaterials) leaves an item
with qtyPerUnit = 0 and unitCost = 0 untouched even when bufferUnits > 0,
and the save path stores the modal's list verbatim; but the modal's
updateRow recomputes cost unconditionally whenever qtyPerUnit, bufferUnits
or unitCost is edited, so editing bufferUnits on such an item overwrites
its cost with (newBufferValue) × 0 = 0. -/
theorem designfin_c5_amended (ms : List MaterialItem) (b v : ℚ) (id : String) :
    (∀ (i : ℕ) (m : MaterialItem), ms[i]? = some m →
      m.qtyPerUnit = 0 → m.unitCost = 0 →
      ∃ m2, (recalculateMaterials ms b)[i]? = some m2 ∧ m2.cost = m.cost) ∧
    (∀ st : FinancialState, (saveMaterials st ms).materials = ms) ∧
    (∀ (i : ℕ) (m : MaterialItem), ms[i]? = some m → m.id = id →
      m.qtyPerUnit = 0 → m.unitCost = 0 →
      ∃ m2, (updateRow b ms id MatField.bufferUnits (FieldValue.num v))[i]? = some m2 ∧
        m2.cost = 0 ∧ m2.bufferUnits = v) := by
  refine ⟨fun i m h1 hq hu => ?_, fun st => rfl, fun i m h1 hid hq hu => ?_⟩
  · rw [recalculateMaterials, List.getElem?_map, h1, Option.map_some']
    refine ⟨_, rfl, ?_⟩
    have hno : ¬ (m.unitCost > 0 ∨ m.qtyPerUnit > 0) := by simp [hq, hu]
    simp [recalcMaterial, hno]
  · rw [updateRow, List.getElem?_map, h1, Option.map_some']
    refine ⟨_, rfl, ?_, ?_⟩
    · simp [hid, hq, hu, setMatField, FieldValue.toNum]
    · simp [hid, setMatField]

theorem designfin_c5_amended_witness :
    ∃ m2, (updateRow 50 [⟨"2", "Packaging", 50, 0, 0, 0, "Manual entry"⟩] "2"
        MatField.bufferUnits (FieldValue.num 4))[0]? = some m2 ∧
      m2.cost = 0 ∧ m2.bufferUnits = 4 :=
  (designfin_c5_amended [⟨"2", "Packaging", 50, 0, 0, 0, "Manual entry"⟩] 50 4 "2").2.2
    0 ⟨"2", "Packaging", 50, 0, 0, 0, "Manual entry"⟩ rfl rfl rfl rfl

end DesignFin
